import Mathlib

/-!
Verification of the slot-migration subsystem (`src/cluster/slot_migrate.cc` /
`slot_migrate.h`) against its natural-language specification.

The development shallowly embeds the relevant routines of `SlotMigrator`:

* the submission path `PerformSlotMigration` and the cleanup routine `Clean`
  as pure state transformers over a record mirroring the migrator's fields;
* the pipeline flush `SendCmdsPipelineIfNeed` with the socket interactions
  abstracted into boolean oracles and the effect made explicit;
* the rate limiter `ApplyMigrationSpeedLimit` as a pure sleep computation;
* the per-key classifier `MigrateOneKey` and the batching loop of
  `MigrateComplexKey`;
* the bounded WAL loop `SyncWALBeforeForbiddingSlot` with the observed latest
  sequence and the per-round tail outcome supplied as environments;
* the destination reply parser `CheckMultipleResponses` over an explicit byte
  stream;
* a small-step interleaving model of submissions, the worker loop and `Clean`,
  for the cross-thread invariant about the running slot and the stage.

Machine integers are modelled as `Int`/`Nat` with explicit reductions modulo
`2 ^ 64` (for `uint64_t` subtraction and addition) and modulo `2 ^ 16` (for the
`int16_t` slot registers) exactly where the C++ code can overflow.
-/

/-- `MigrationState` from slot_migrate.h (the terminal-outcome register
`migration_state_`). -/
inductive MigOutcome
  | mNone
  | mStarted
  | mSuccess
  | mFailed
deriving DecidableEq, Repr

/-- `SlotMigrationStage` from slot_migrate.h (the register `current_stage_`). -/
inductive MigStage
  | sNone
  | sStart
  | sSnapshot
  | sWAL
  | sSuccess
  | sFailed
  | sClean
deriving DecidableEq, Repr

/-- `KeyMigrationResult` from slot_migrate.h. -/
inductive KeyMigResult
  | kMigrated
  | kExpired
  | kUnderlyingStructEmpty
deriving DecidableEq, Repr

/-- `RedisType` as used by `MigrateOneKey` to dispatch on the metadata kind. -/
inductive RedisTypeM
  | tString
  | tList
  | tHash
  | tSet
  | tZSet
  | tBitmap
  | tSortedint
  | tStream
deriving DecidableEq, Repr

/-- The value stored into an `int16_t`, as an integer in `[-32768, 32767]`,
mirroring `static_cast<int16_t>` in `PerformSlotMigration`. -/
def toInt16 (x : Int) : Int := (x + 32768) % 65536 - 32768

/-- `SlotMigrationJob` from slot_migrate.h: parameters of one submitted
migration, immutable after submission. -/
structure SlotMigrationJob where
  slotId : Int
  dstIp : String
  dstPort : Int
  maxSpeed : Int
  maxPipelineSize : Int
  seqGapLimit : Int
deriving DecidableEq, Repr

/-- The fields of `SlotMigrator` that the sequential routines read and write
(slot registers, outcome, stage, snapshot and socket handles, pipeline
counter, WAL cursor, job record, stop flag, destination endpoint).  Handles
are abstracted to `Option Nat` (present/absent). -/
structure MigratorState where
  migratingSlot : Int
  forbiddenSlot : Int
  migrateFailedSlot : Int
  migrationState : MigOutcome
  currentStage : MigStage
  slotSnapshot : Option Nat
  currentPipelineSize : Int
  maxPipelineSize : Int
  maxMigrationSpeed : Int
  seqGapLimit : Int
  walBeginSeq : Nat
  lastSendTime : Nat
  migrationJob : Option SlotMigrationJob
  dstFd : Option Nat
  stopMigration : Bool
  dstNode : String
  dstIp : String
  dstPort : Int
deriving DecidableEq, Repr

/-- Result of `SlotMigrator::PerformSlotMigration` (`Status`): OK, the
"There is already a migrating slot" failure, or the "Can't migrate slot which
has been migrated" failure. -/
inductive SubmitResult
  | ok
  | busy
  | alreadyMigrated
deriving DecidableEq, Repr

/-- `kDefaultMaxPipelineSize` from slot_migrate.h. -/
def kDefaultMaxPipelineSize : Int := 16

/-- `kDefaultSequenceGapLimit` from slot_migrate.h. -/
def kDefaultSequenceGapLimit : Int := 10000

/-- `kMaxItemsInCommand` from slot_migrate.h. -/
def kMaxItemsInCommand : Nat := 16

/-- `kMaxLoopTimes` from slot_migrate.h. -/
def kMaxLoopTimes : Nat := 10

/-- `SlotMigrator::PerformSlotMigration` (slot_migrate.cc:78-119): CAS the
running-slot register from -1 to the slot (an `int16_t` cast of `slot_id`),
reject a second concurrent job, reject a slot equal to the forbidden slot
(reverting the register), otherwise mark the outcome Started, normalize the
out-of-range job parameters, record the destination node and store the job
(signalling the worker's condition variable, represented here by the job
record becoming present). -/
def performSlotMigration (st : MigratorState) (nodeId dstIp : String)
    (dstPort slotId speed pipelineSize seqGap : Int) :
    MigratorState × SubmitResult :=
  if st.migratingSlot ≠ -1 then (st, .busy)
  else
    let st := { st with migratingSlot := toInt16 slotId }
    if st.forbiddenSlot = slotId then
      ({ st with migratingSlot := -1 }, .alreadyMigrated)
    else
      let st := { st with migrationState := .mStarted }
      let speed' := if speed ≤ 0 then 0 else speed
      let ps' := if pipelineSize ≤ 0 then kDefaultMaxPipelineSize else pipelineSize
      let sg' := if seqGap ≤ 0 then kDefaultSequenceGapLimit else seqGap
      ({ st with
          dstNode := nodeId,
          migrationJob := some ⟨toInt16 slotId, dstIp, dstPort, speed', ps', sg'⟩ },
        .ok)

/-- `SlotMigrator::Clean` (slot_migrate.cc:410-425): release the snapshot when
present, reset the stage to None, zero the pipeline counter and the WAL
cursor, clear the job record, close the destination socket, set the running
slot to -1 and clear the stop flag.  It touches no other field. -/
def cleanMigrator (s : MigratorState) : MigratorState :=
  { s with
      slotSnapshot := none,
      currentStage := .sNone,
      currentPipelineSize := 0,
      walBeginSeq := 0,
      migrationJob := none,
      dstFd := none,
      migratingSlot := -1,
      stopMigration := false }

/-- The three fields of the status string built by `GetMigrationInfo`. -/
structure MigrationInfo where
  slot : Int
  node : String
  stateName : String
deriving DecidableEq, Repr

/-- `SlotMigrator::GetMigrationInfo` (slot_migrate.cc:1054-1085): empty output
when all three slot registers are negative; otherwise the reported slot is the
running slot while started, the forbidden slot after success, and the failed
slot after failure. -/
def getMigrationInfo (s : MigratorState) : Option MigrationInfo :=
  if s.migratingSlot < 0 ∧ s.forbiddenSlot < 0 ∧ s.migrateFailedSlot < 0 then
    none
  else
    match s.migrationState with
    | .mNone => some ⟨-1, s.dstNode, "none"⟩
    | .mStarted => some ⟨s.migratingSlot, s.dstNode, "start"⟩
    | .mSuccess => some ⟨s.forbiddenSlot, s.dstNode, "success"⟩
    | .mFailed => some ⟨s.migrateFailedSlot, s.dstNode, "fail"⟩

/-- `SlotMigrator::ApplyMigrationSpeedLimit` (slot_migrate.cc:899-912),
returning the number of microseconds the migration thread sleeps.  All
quantities are `uint64_t`; `per_request_time` is the integer quotient
`1000000 * max_pipeline_size_ / max_migration_speed_`, raised to 1 when the
quotient is 0. -/
def applyMigrationSpeedLimit (maxSpeed maxPipelineSize lastSendTime now : Nat) :
    Nat :=
  if 0 < maxSpeed then
    let prt := 1000000 * maxPipelineSize / maxSpeed
    let prt := if prt = 0 then 1 else prt
    if now < lastSendTime + prt then lastSendTime + prt - now else 0
  else 0

/-- What one call to `SendCmdsPipelineIfNeed` did: failed with the canceled
error before any I/O, returned OK without I/O, failed to send, sent but got a
bad reply (after awaiting `awaited` replies), or sent the whole buffer and
successfully awaited exactly `awaited` replies. -/
inductive FlushEffect
  | fCanceled
  | fSkipped
  | fSendFailed
  | fCheckFailed (awaited : Int)
  | fSent (buffer : List (List String)) (awaited : Int)
deriving DecidableEq, Repr

/-- `SlotMigrator::SendCmdsPipelineIfNeed` (slot_migrate.cc:846-880).  The
command buffer (the `std::string *commands` argument) is a list of commands;
the socket send and the reply check are oracles `sendOk`/`checkOk`;
`now` is the timestamp taken after a successful send.  Returns the new state,
the new buffer and the effect. -/
def sendCmdsPipelineIfNeed (st : MigratorState) (cmds : List (List String))
    (need sendOk checkOk : Bool) (now : Nat) :
    MigratorState × List (List String) × FlushEffect :=
  if st.stopMigration then (st, cmds, .fCanceled)
  else if need = false ∧ st.currentPipelineSize < st.maxPipelineSize then
    (st, cmds, .fSkipped)
  else if st.currentPipelineSize = 0 then (st, cmds, .fSkipped)
  else if sendOk = false then (st, cmds, .fSendFailed)
  else
    let st' := { st with lastSendTime := now }
    if checkOk = false then (st', cmds, .fCheckFailed st.currentPipelineSize)
    else ({ st' with currentPipelineSize := 0 }, [],
      .fSent cmds st.currentPipelineSize)

/-- Modelled from the spec: `Metadata::Expired` lives in the storage layer,
which is not part of the sources here.  Spec §3: "A key is expired iff
expiry > 0 and expiry ≤ now" (absolute expiry in ms, 0 = none). -/
def metadataExpired (expire now : Nat) : Bool :=
  0 < expire && expire ≤ now

/-- The classification performed at the head of `SlotMigrator::MigrateOneKey`
(slot_migrate.cc:569-620): the emptiness test (`type() != kRedisString &&
type() != kRedisStream && size == 0`) runs before the expiry test, and both
early branches return before any restore command is built.  `buildCmds`
stands for the commands the per-type migration routines would append in the
migrated case. -/
def migrateOneKeyClassify (t : RedisTypeM) (size expire now : Nat)
    (buildCmds : List (List String)) : KeyMigResult × List (List String) :=
  if t ≠ .tString ∧ t ≠ .tStream ∧ size = 0 then (.kUnderlyingStructEmpty, [])
  else if metadataExpired expire now then (.kExpired, [])
  else (.kMigrated, buildCmds)

/-- `uint64_t` subtraction `a - b` with wraparound. -/
def sub64 (a b : Nat) : Nat := (a % 2 ^ 64 + 2 ^ 64 - b % 2 ^ 64) % 2 ^ 64

/-- Result of the Phase-A loop: whether it returned OK, how many tail rounds
it executed, and the final `wal_begin_seq_`. -/
structure PhaseAResult where
  ok : Bool
  rounds : Nat
  walBegin : Nat
deriving DecidableEq, Repr

/-- The loop body of `SlotMigrator::SyncWALBeforeForbiddingSlot`
(slot_migrate.cc:994-1027), with `left` the remaining iterations of the
`count < kMaxLoopTimes` guard, `latest` the sequence observed by
`GetLatestSequenceNumber` at each round and `tailOk` the outcome of
`GetWALIter` + `MigrateIncrementData` at each round. -/
def phaseAGo (latest : Nat → Nat) (tailOk : Nat → Bool) (limit : Nat) :
    Nat → Nat → Nat → PhaseAResult
  | 0, count, walBegin => ⟨true, count, walBegin⟩
  | left + 1, count, walBegin =>
    if sub64 (latest count) walBegin ≤ limit then ⟨true, count, walBegin⟩
    else if tailOk count then
      phaseAGo latest tailOk limit left (count + 1) (latest count)
    else ⟨false, count, walBegin⟩

/-- `SlotMigrator::SyncWALBeforeForbiddingSlot`: the loop runs while
`count < kMaxLoopTimes` with `count` starting at 0, so at most 10 rounds. -/
def syncWALBeforeForbiddingSlot (latest : Nat → Nat) (tailOk : Nat → Bool)
    (limit walBegin : Nat) : PhaseAResult :=
  phaseAGo latest tailOk limit kMaxLoopTimes 0 walBegin

/-- Outcome of `SlotMigrator::CheckMultipleResponses`
(slot_migrate.cc:487-567): success, a failed socket read (including the 1 s
receive timeout on a stalled destination), an error reply beginning with
`-`, a `$` header whose length failed to parse ("protocol error: expected
integer value"), an unrecognized header byte, or the invalid-argument guard. -/
inductive RespOutcome
  | respOk
  | errRead
  | errDestination
  | errProtocol
  | errUnexpected
  | errInvalidArgs
deriving DecidableEq, Repr

/-- `evbuffer_readln` with `EVBUFFER_EOL_CRLF_STRICT`: split the buffer at the
first CRLF, returning the line (without the CRLF) and the rest; `none` when
the buffer holds no complete line yet. -/
def splitCRLF : List Char → Option (List Char × List Char)
  | [] => none
  | '\r' :: '\n' :: rest => some ([], rest)
  | c :: rest => (splitCRLF rest).map fun p => (c :: p.1, p.2)


/-- The digits of an unsigned decimal numeral; `none` when empty or when a
non-digit character occurs (`ParseInt` requires the whole string to be
consumed). -/
def digitsToNat (cs : List Char) : Option Nat :=
  if cs = [] ∨ ¬ cs.all Char.isDigit then none
  else some (cs.foldl (fun a c => a * 10 + (c.toNat - 48)) 0)

/-- Modelled from the spec: `ParseInt<uint64_t>` lives in parse_util.h, which
is not part of the sources here; it wraps the C `strtoull` contract, under
which an optional leading minus sign is accepted and the converted value is
negated in the unsigned return type, i.e. taken modulo `2 ^ 64`, while a
magnitude of `2 ^ 64` or more fails with `ERANGE`. -/
def parseUInt64 (cs : List Char) : Option Nat :=
  match cs with
  | '-' :: rest =>
    (digitsToNat rest).bind fun v =>
      if v < 2 ^ 64 then some ((2 ^ 64 - v % 2 ^ 64) % 2 ^ 64) else none
  | _ =>
    (digitsToNat cs).bind fun v => if v < 2 ^ 64 then some v else none

/-- One iteration of the response loop of `CheckMultipleResponses`
(states `ArrayLen` → possibly `BulkData` → `OneRspEnd`): read a CRLF line,
dispatch on its first byte, and for a `$` header with positive parsed length
`L` require and drain `(L + 2) mod 2 ^ 64` bytes (`bulk_len + 2` in `size_t`
arithmetic).  The whole byte stream the destination will ever send is given
up front, so needing bytes beyond it is the failed/timed-out
`evbuffer_read`. -/
def checkOneResponse (buf : List Char) : RespOutcome ⊕ List Char :=
  match splitCRLF buf with
  | none => .inl .errRead
  | some (line, rest) =>
    match line with
    | [] => .inl .errUnexpected
    | c :: cs =>
      if c = '-' then .inl .errDestination
      else if c = '$' then
        match parseUInt64 cs with
        | none => .inl .errProtocol
        | some v =>
          if 0 < v then
            let d := (v + 2) % 2 ^ 64
            if rest.length < d then .inl .errRead
            else .inr (rest.drop d)
          else .inr rest
      else if c = '+' ∨ c = ':' then .inr rest
      else .inl .errUnexpected

/-- The `cnt < total` loop of `CheckMultipleResponses`. -/
def checkResponsesGo : Nat → List Char → RespOutcome
  | 0, _ => .respOk
  | n + 1, buf =>
    match checkOneResponse buf with
    | .inl e => e
    | .inr rest => checkResponsesGo n rest

/-- `SlotMigrator::CheckMultipleResponses` (slot_migrate.cc:487-567) over the
byte stream `buf` sent by the destination, awaiting `total` responses. -/
def checkMultipleResponses (buf : List Char) (total : Nat) : RespOutcome :=
  if total = 0 then .errInvalidArgs else checkResponsesGo total buf

/-- The element-batching loop of `SlotMigrator::MigrateComplexKey`
(slot_migrate.cc:642-746) together with its post-loop remainder check.  Each
element of `elems` is the argument list one subkey record contributes to
`user_cmd` (one member for a set, value for a list, field and value for a
hash, score and member for a sorted set, decimal id for a sorted int); `cur`
is the accumulated argument tail of `user_cmd` beyond `(verb, key)` and `cnt`
is `item_count`.  On reaching `kMaxItemsInCommand` elements the command is
finalized and `user_cmd` is truncated back to `(verb, key)`; after the loop
the remainder is finalized when `item_count % kMaxItemsInCommand != 0`. -/
def complexBatchGo (verb key : String) :
    List (List String) → List String → Nat → List (List String)
  | [], cur, cnt =>
    if cnt % kMaxItemsInCommand ≠ 0 then [verb :: key :: cur] else []
  | e :: rest, cur, cnt =>
    let cur' := cur ++ e
    if kMaxItemsInCommand ≤ cnt + 1 then
      (verb :: key :: cur') :: complexBatchGo verb key rest [] 0
    else complexBatchGo verb key rest cur' (cnt + 1)

/-- The commands `SlotMigrator::MigrateComplexKey` appends for a non-bitmap
complex key: the batched element commands followed by a trailing `PEXPIREAT`
exactly when the metadata expire field is positive. -/
def migrateComplexKeyCmds (verb key : String) (elems : List (List String))
    (expire : Nat) : List (List String) :=
  complexBatchGo verb key elems [] 0 ++
    (if 0 < expire then [["PEXPIREAT", key, toString expire]] else [])

/-- Groups of `kMaxItemsInCommand` consecutive elements, the last group
possibly shorter: the specification-side description of the batching. -/
def chunks16 : List (List String) → List (List (List String))
  | [] => []
  | e :: rest =>
    ((e :: rest).take kMaxItemsInCommand) :: chunks16 ((e :: rest).drop kMaxItemsInCommand)
  termination_by l => l.length
  decreasing_by
    simp [List.length_drop, kMaxItemsInCommand]
    omega

/-- Program counter of the background worker thread: blocked in `Loop`'s
condition wait; past the wait with a job but before `RunMigrationProcess`
sets the Start stage; inside the stage-machine loop; and the two windows
inside `Clean` after the stage reset (before the job record is cleared, and
before the running slot is released). -/
inductive WorkerPC
  | wWaiting
  | wEntered
  | wDriving
  | wClean1
  | wClean2
deriving DecidableEq, Repr

/-- Program counter of a client thread inside `PerformSlotMigration` after
its compare-and-swap on `migrating_slot_` succeeded: about to compare the
slot against `forbidden_slot_`, about to store `kStarted` into
`migration_state_`, or about to store the job and notify the worker. -/
inductive SubPC
  | spCheckForbidden (slot : Int)
  | spSetOutcome (slot : Int)
  | spStoreJob (slot : Int)
deriving DecidableEq, Repr

/-- Shared state of the interleaving model: the atomic slot registers, the
outcome and stage registers, the job record (at most one, as in the
`unique_ptr` field `migration_job_`), the stop flag, and the two program
counters. -/
structure CState where
  migratingSlot : Int
  forbiddenSlot : Int
  migrateFailedSlot : Int
  migrationState : MigOutcome
  currentStage : MigStage
  migrationJob : Option Int
  stopFlag : Bool
  workerPC : WorkerPC
  subPC : Option SubPC
deriving DecidableEq, Repr

/-- The migrator as constructed: all slot registers -1, no job, stage None,
worker waiting. -/
def cinit : CState :=
  { migratingSlot := -1
    forbiddenSlot := -1
    migrateFailedSlot := -1
    migrationState := .mNone
    currentStage := .sNone
    migrationJob := none
    stopFlag := false
    workerPC := .wWaiting
    subPC := none }

/-- Atomic steps of the migrator under an arbitrary interleaving of
`PerformSlotMigration` calls (slot_migrate.cc:78-119), the worker loop
`Loop`/`RunMigrationProcess` (slot_migrate.cc:141-245) and `Clean`
(slot_migrate.cc:410-425).  Submitted slot ids are in `[0, SLOT_COUNT)`
(spec §3), hence nonnegative.  Stage bodies succeed or fail
nondeterministically; `SyncWAL` may fail before or after
`SetForbiddenSlot`. -/
inductive MStep : CState → CState → Prop
  | casOk (s : CState) (slot : Int) (hs : 0 ≤ slot)
      (h1 : s.migratingSlot = -1) (h2 : s.subPC = none) :
      MStep s { s with migratingSlot := slot,
                       subPC := some (.spCheckForbidden slot) }
  | casHit (s : CState) (slot : Int)
      (h : s.subPC = some (.spCheckForbidden slot))
      (hf : s.forbiddenSlot = slot) :
      MStep s { s with migratingSlot := -1, subPC := none }
  | casMiss (s : CState) (slot : Int)
      (h : s.subPC = some (.spCheckForbidden slot))
      (hf : s.forbiddenSlot ≠ slot) :
      MStep s { s with subPC := some (.spSetOutcome slot) }
  | setOut (s : CState) (slot : Int) (h : s.subPC = some (.spSetOutcome slot)) :
      MStep s { s with migrationState := .mStarted,
                       subPC := some (.spStoreJob slot) }
  | storeJob (s : CState) (slot : Int) (h : s.subPC = some (.spStoreJob slot)) :
      MStep s { s with migrationJob := some slot, subPC := none }
  | pickJob (s : CState) (j : Int) (hw : s.workerPC = .wWaiting)
      (hj : s.migrationJob = some j) :
      MStep s { s with workerPC := .wEntered }
  | beginProcess (s : CState) (hw : s.workerPC = .wEntered) :
      MStep s { s with workerPC := .wDriving, currentStage := .sStart }
  | startOk (s : CState) (hw : s.workerPC = .wDriving)
      (hst : s.currentStage = .sStart) :
      MStep s { s with currentStage := .sSnapshot }
  | startFail (s : CState) (hw : s.workerPC = .wDriving)
      (hst : s.currentStage = .sStart) :
      MStep s { s with currentStage := .sFailed }
  | snapshotOk (s : CState) (hw : s.workerPC = .wDriving)
      (hst : s.currentStage = .sSnapshot) :
      MStep s { s with currentStage := .sWAL }
  | snapshotFail (s : CState) (hw : s.workerPC = .wDriving)
      (hst : s.currentStage = .sSnapshot) :
      MStep s { s with currentStage := .sFailed }
  | walOk (s : CState) (hw : s.workerPC = .wDriving)
      (hst : s.currentStage = .sWAL) :
      MStep s { s with forbiddenSlot := s.migratingSlot,
                       currentStage := .sSuccess }
  | walFailEarly (s : CState) (hw : s.workerPC = .wDriving)
      (hst : s.currentStage = .sWAL) :
      MStep s { s with currentStage := .sFailed }
  | walFailLate (s : CState) (hw : s.workerPC = .wDriving)
      (hst : s.currentStage = .sWAL) :
      MStep s { s with forbiddenSlot := s.migratingSlot,
                       currentStage := .sFailed }
  | successOk (s : CState) (hw : s.workerPC = .wDriving)
      (hst : s.currentStage = .sSuccess) :
      MStep s { s with migrateFailedSlot := -1, migrationState := .mSuccess,
                       currentStage := .sClean }
  | successFail (s : CState) (hw : s.workerPC = .wDriving)
      (hst : s.currentStage = .sSuccess) :
      MStep s { s with currentStage := .sFailed }
  | failedDone (s : CState) (hw : s.workerPC = .wDriving)
      (hst : s.currentStage = .sFailed) :
      MStep s { s with migrateFailedSlot := s.migratingSlot,
                       forbiddenSlot := -1, migrationState := .mFailed,
                       currentStage := .sClean }
  | cleanStage (s : CState) (hw : s.workerPC = .wDriving)
      (hst : s.currentStage = .sClean) :
      MStep s { s with currentStage := .sNone, workerPC := .wClean1 }
  | cleanJob (s : CState) (hw : s.workerPC = .wClean1) :
      MStep s { s with migrationJob := none, workerPC := .wClean2 }
  | cleanSlot (s : CState) (hw : s.workerPC = .wClean2) :
      MStep s { s with migratingSlot := -1, stopFlag := false,
                       workerPC := .wWaiting }
  | setStopFlag (s : CState) (b : Bool) :
      MStep s { s with stopFlag := b }

/-- States reachable from the freshly constructed migrator under any
interleaving of the steps. -/
inductive Reachable : CState → Prop
  | init : Reachable cinit
  | step {s t : CState} : Reachable s → MStep s t → Reachable t

/-- Inductive invariant of the interleaving model. -/
def InvC (s : CState) : Prop :=
  (s.migratingSlot = -1 →
    s.currentStage = .sNone ∧ s.migrationJob = none ∧ s.subPC = none ∧
      s.workerPC = .wWaiting) ∧
  (s.subPC ≠ none →
    s.migrationJob = none ∧ s.currentStage = .sNone ∧
      s.workerPC = .wWaiting ∧ s.migratingSlot ≠ -1) ∧
  (s.currentStage ≠ .sNone →
    s.workerPC = .wDriving ∧ s.migrationJob ≠ none ∧ s.migratingSlot ≠ -1 ∧
      s.subPC = none) ∧
  (s.workerPC = .wClean1 →
    s.currentStage = .sNone ∧ s.subPC = none ∧ s.migratingSlot ≠ -1) ∧
  (s.workerPC = .wClean2 →
    s.currentStage = .sNone ∧ s.subPC = none ∧ s.migratingSlot ≠ -1 ∧
      s.migrationJob = none) ∧
  (s.workerPC = .wEntered →
    s.currentStage = .sNone ∧ s.migrationJob ≠ none ∧ s.subPC = none ∧
      s.migratingSlot ≠ -1) ∧
  (s.migrationJob ≠ none →
    s.migratingSlot ≠ -1 ∧ s.subPC = none ∧
      (s.workerPC = .wWaiting → s.currentStage = .sNone))

theorem invC_reachable {s : CState} (h : Reachable s) : InvC s := by
  induction h with
  | init => simp [InvC, cinit]
  | step hr hstep ih =>
    obtain ⟨i1, i2, i3, i4, i5, i6, i7⟩ := ih
    cases hstep <;>
      simp_all [InvC] <;>
      omega

/-- A baseline migrator state for concrete instantiations: registers -1,
defaults as in slot_migrate.h. -/
def mst0 : MigratorState :=
  { migratingSlot := -1
    forbiddenSlot := -1
    migrateFailedSlot := -1
    migrationState := .mNone
    currentStage := .sNone
    slotSnapshot := none
    currentPipelineSize := 0
    maxPipelineSize := 16
    maxMigrationSpeed := 4096
    seqGapLimit := 10000
    walBeginSeq := 0
    lastSendTime := 0
    migrationJob := none
    dstFd := none
    stopMigration := false
    dstNode := ""
    dstIp := ""
    dstPort := -1 }

/-- Claim C1, counterexample: the biconditional "`running = -1` iff
stage = None" fails on a reachable state.  After `PerformSlotMigration`
stores the job and returns OK, and before the worker thread executes
`RunMigrationProcess`'s first assignment, `migrating_slot_` already holds the
submitted slot while `current_stage_` is still None. -/
theorem c1_iff_counterexample :
    ¬ ∀ s : CState, Reachable s →
      (s.migratingSlot = -1 ↔ s.currentStage = MigStage.sNone) := by
  intro h
  have r1 : Reachable
      { cinit with migratingSlot := 5, subPC := some (.spCheckForbidden 5) } :=
    .step .init (.casOk cinit 5 (by decide) rfl rfl)
  have r2 : Reachable
      { cinit with migratingSlot := 5, subPC := some (.spSetOutcome 5) } :=
    .step r1 (.casMiss _ 5 rfl (by decide))
  have r3 : Reachable
      { cinit with migratingSlot := 5, migrationState := .mStarted,
                   subPC := some (.spStoreJob 5) } :=
    .step r2 (.setOut _ 5 rfl)
  have r4 : Reachable
      { cinit with migratingSlot := 5, migrationState := .mStarted,
                   migrationJob := some 5 } :=
    .step r3 (.storeJob _ 5 rfl)
  exact absurd ((h _ r4).mpr rfl) (by decide)

/-- Claim C1 (amended): in every reachable state of the interleaving of
`PerformSlotMigration` calls, the worker loop and `Clean`, whenever the
running-slot register is -1 the stage is None, no migration job exists and no
submission is past its compare-and-swap (so a job is only ever created from a
state with no job: at most one exists at any instant); and an in-flight
submission never coexists with a stored job.  The converse direction of the
claimed biconditional is false (see the counterexample): between a successful
submission and the worker's first stage assignment, and inside `Clean` after
the stage reset, the stage is None while the register still holds the
slot. -/
theorem c1_amended_invariant (s : CState) (h : Reachable s) :
    (s.migratingSlot = -1 →
      s.currentStage = MigStage.sNone ∧ s.migrationJob = none ∧
        s.subPC = none) ∧
    (s.subPC ≠ none → s.migrationJob = none) := by
  have hi := invC_reachable h
  exact ⟨fun hm => ⟨(hi.1 hm).1, (hi.1 hm).2.1, (hi.1 hm).2.2.1⟩,
    fun hp => (hi.2.1 hp).1⟩

/-- Witness for `c1_amended_invariant` at two concrete reachable states: the
initial state (register -1) and the state right after a successful
compare-and-swap (submission in flight). -/
theorem c1_amended_invariant_witness :
    Reachable cinit ∧ cinit.migratingSlot = -1 ∧
      (cinit.currentStage = MigStage.sNone ∧ cinit.migrationJob = none ∧
        cinit.subPC = none) ∧
      ({ cinit with
          migratingSlot := 5,
          subPC := some (.spCheckForbidden 5) } : CState).migrationJob =
        none := by
  have r1 : Reachable
      { cinit with migratingSlot := 5, subPC := some (.spCheckForbidden 5) } :=
    .step .init (.casOk cinit 5 (by decide) rfl rfl)
  exact ⟨.init, rfl, (c1_amended_invariant cinit .init).1 rfl,
    (c1_amended_invariant _ r1).2 (by simp)⟩

/-- Claim C3: `PerformSlotMigration` fails busy without touching the state
when the running register is taken; reverts the register and fails
already-migrated when the slot equals the forbidden slot; otherwise marks the
outcome Started, records the destination node, stores the normalized job
(signalling the worker) and returns OK. -/
theorem c3_perform_slot_migration_cases (st : MigratorState)
    (nodeId dstIp : String) (dstPort slotId speed ps sg : Int) :
    (st.migratingSlot ≠ -1 →
      performSlotMigration st nodeId dstIp dstPort slotId speed ps sg =
        (st, .busy)) ∧
    (st.migratingSlot = -1 → st.forbiddenSlot = slotId →
      performSlotMigration st nodeId dstIp dstPort slotId speed ps sg =
        ({ st with migratingSlot := -1 }, .alreadyMigrated)) ∧
    (st.migratingSlot = -1 → st.forbiddenSlot ≠ slotId →
      performSlotMigration st nodeId dstIp dstPort slotId speed ps sg =
        ({ st with
            migratingSlot := toInt16 slotId,
            migrationState := .mStarted,
            dstNode := nodeId,
            migrationJob := some ⟨toInt16 slotId, dstIp, dstPort,
              if speed ≤ 0 then 0 else speed,
              if ps ≤ 0 then kDefaultMaxPipelineSize else ps,
              if sg ≤ 0 then kDefaultSequenceGapLimit else sg⟩ }, .ok)) := by
  refine ⟨fun h1 => ?_, fun h1 h2 => ?_, fun h1 h2 => ?_⟩ <;>
    simp [performSlotMigration, h1, *]

/-- Witness for `c3_perform_slot_migration_cases`: the three branches at
concrete states. -/
theorem c3_perform_slot_migration_witness :
    ({ mst0 with migratingSlot := 3 } : MigratorState).migratingSlot ≠ -1 ∧
    performSlotMigration { mst0 with migratingSlot := 3 } "n1" "1.2.3.4" 7000
        5 0 0 0 = ({ mst0 with migratingSlot := 3 }, .busy) ∧
    performSlotMigration { mst0 with forbiddenSlot := 5 } "n1" "1.2.3.4" 7000
        5 0 0 0 =
      ({ mst0 with forbiddenSlot := 5, migratingSlot := -1 },
        .alreadyMigrated) ∧
    performSlotMigration mst0 "n1" "1.2.3.4" 7000 5 0 0 0 =
      ({ mst0 with
          migratingSlot := toInt16 5,
          migrationState := .mStarted,
          dstNode := "n1",
          migrationJob := some ⟨toInt16 5, "1.2.3.4", 7000, 0,
            kDefaultMaxPipelineSize, kDefaultSequenceGapLimit⟩ }, .ok) := by
  refine ⟨by decide, ?_, ?_, ?_⟩
  · exact (c3_perform_slot_migration_cases { mst0 with migratingSlot := 3 }
      "n1" "1.2.3.4" 7000 5 0 0 0).1 (by decide)
  · exact (c3_perform_slot_migration_cases { mst0 with forbiddenSlot := 5 }
      "n1" "1.2.3.4" 7000 5 0 0 0).2.1 rfl rfl
  · exact (c3_perform_slot_migration_cases mst0
      "n1" "1.2.3.4" 7000 5 0 0 0).2.2 rfl (by decide)

/-- Claim C8: an accepted submission stores the job with out-of-range
parameters normalized: a speed ≤ 0 becomes 0 (unlimited, not the configured
default 4096), a pipeline size ≤ 0 becomes 16, a sequence-gap limit ≤ 0
becomes 10000. -/
theorem c8_submit_normalizes_job (st : MigratorState) (nodeId dstIp : String)
    (dstPort slotId speed ps sg : Int)
    (h1 : st.migratingSlot = -1) (h2 : st.forbiddenSlot ≠ slotId) :
    (performSlotMigration st nodeId dstIp dstPort slotId speed ps sg).1.migrationJob =
      some ⟨toInt16 slotId, dstIp, dstPort,
        if speed ≤ 0 then 0 else speed,
        if ps ≤ 0 then 16 else ps,
        if sg ≤ 0 then 10000 else sg⟩ := by
  simp [performSlotMigration, h1, h2, kDefaultMaxPipelineSize,
    kDefaultSequenceGapLimit]

/-- Witness for `c8_submit_normalizes_job`: speed -1, pipeline size 0 and
sequence gap -7 are stored as 0, 16 and 10000. -/
theorem c8_submit_normalizes_job_witness :
    mst0.migratingSlot = -1 ∧ mst0.forbiddenSlot ≠ (5 : Int) ∧
    (performSlotMigration mst0 "n1" "1.2.3.4" 7000 5 (-1) 0 (-7)).1.migrationJob =
      some ⟨5, "1.2.3.4", 7000, 0, 16, 10000⟩ :=
  ⟨rfl, by decide,
    (c8_submit_normalizes_job mst0 "n1" "1.2.3.4" 7000 5 (-1) 0 (-7) rfl
      (by decide)).trans (by decide)⟩

/-- Claim C4: `SendCmdsPipelineIfNeed` fails with the canceled error before
any I/O when the stop flag is set at entry; returns OK without I/O when not
forced and below the pipeline width, or when the counter is zero; otherwise
sends the entire buffer, awaits exactly `current_pipeline_size_` replies, and
on success clears the buffer and resets the counter to zero (recording the
send timestamp). -/
theorem c4_pipeline_flush_cases (st : MigratorState) (cmds : List (List String))
    (need sendOk checkOk : Bool) (now : Nat) :
    (st.stopMigration = true →
      sendCmdsPipelineIfNeed st cmds need sendOk checkOk now =
        (st, cmds, .fCanceled)) ∧
    (st.stopMigration = false →
      (need = false ∧ st.currentPipelineSize < st.maxPipelineSize) ∨
        st.currentPipelineSize = 0 →
      sendCmdsPipelineIfNeed st cmds need sendOk checkOk now =
        (st, cmds, .fSkipped)) ∧
    (st.stopMigration = false →
      ¬(need = false ∧ st.currentPipelineSize < st.maxPipelineSize) →
      st.currentPipelineSize ≠ 0 → sendOk = true → checkOk = true →
      sendCmdsPipelineIfNeed st cmds need sendOk checkOk now =
        ({ st with lastSendTime := now, currentPipelineSize := 0 }, [],
          .fSent cmds st.currentPipelineSize)) := by
  refine ⟨fun h1 => ?_, fun h1 h2 => ?_, fun h1 h2 h3 h4 h5 => ?_⟩
  · simp [sendCmdsPipelineIfNeed, h1]
  · rcases h2 with h2 | h2 <;> simp [sendCmdsPipelineIfNeed, h1, h2]
  · simp [sendCmdsPipelineIfNeed, h1, h2, h3, h4, h5]

/-- Witness for `c4_pipeline_flush_cases`: the three branches at concrete
inputs (stop flag set; counter 3 below width 16 without force; forced flush
of 3 buffered commands with both oracles succeeding). -/
theorem c4_pipeline_flush_witness :
    ({ mst0 with stopMigration := true } : MigratorState).stopMigration = true ∧
    sendCmdsPipelineIfNeed { mst0 with stopMigration := true } [["set", "k", "v"]]
        false true true 9 =
      ({ mst0 with stopMigration := true }, [["set", "k", "v"]], .fCanceled) ∧
    sendCmdsPipelineIfNeed { mst0 with currentPipelineSize := 3 }
        [["set", "k", "v"]] false true true 9 =
      ({ mst0 with currentPipelineSize := 3 }, [["set", "k", "v"]],
        .fSkipped) ∧
    sendCmdsPipelineIfNeed { mst0 with currentPipelineSize := 3 }
        [["set", "k", "v"]] true true true 9 =
      ({ mst0 with currentPipelineSize := 0, lastSendTime := 9 }, [],
        .fSent [["set", "k", "v"]] 3) := by
  refine ⟨rfl, ?_, ?_, ?_⟩
  · exact (c4_pipeline_flush_cases { mst0 with stopMigration := true }
      [["set", "k", "v"]] false true true 9).1 rfl
  · exact (c4_pipeline_flush_cases { mst0 with currentPipelineSize := 3 }
      [["set", "k", "v"]] false true true 9).2.1 rfl (by decide)
  · exact ((c4_pipeline_flush_cases { mst0 with currentPipelineSize := 3 }
      [["set", "k", "v"]] true true true 9).2.2 rfl (by decide) (by decide)
      rfl rfl).trans (by decide)

/-- Claim C6: `max_speed = 0` disables the rate limit; for `max_speed > 0`
the enforced spacing is the integer quotient `pipeline_width * 1e6 /
max_speed` microseconds, never less than 1, and when the last send timestamp
plus this spacing lies in the future the thread sleeps exactly the
difference. -/
theorem c6_speed_limit (maxSpeed pipe lastSend now : Nat) :
    applyMigrationSpeedLimit 0 pipe lastSend now = 0 ∧
    (0 < maxSpeed →
      1 ≤ max (1000000 * pipe / maxSpeed) 1 ∧
      applyMigrationSpeedLimit maxSpeed pipe lastSend now =
        if now < lastSend + max (1000000 * pipe / maxSpeed) 1 then
          lastSend + max (1000000 * pipe / maxSpeed) 1 - now
        else 0) := by
  refine ⟨by simp [applyMigrationSpeedLimit], fun h => ⟨le_max_right _ _, ?_⟩⟩
  have hmax : (if 1000000 * pipe / maxSpeed = 0 then 1
      else 1000000 * pipe / maxSpeed) = max (1000000 * pipe / maxSpeed) 1 := by
    rcases Nat.eq_zero_or_pos (1000000 * pipe / maxSpeed) with h0 | h0
    · simp [h0]
    · rw [if_neg (by omega), Nat.max_eq_left h0]
  simp only [applyMigrationSpeedLimit, if_pos h, hmax]

/-- Witness for `c6_speed_limit` at the default configuration 4096 ops/s and
16 commands per flush: the spacing is 3906 µs and a flush 1 µs after the
previous send sleeps 3905 µs. -/
theorem c6_speed_limit_witness :
    0 < 4096 ∧ applyMigrationSpeedLimit 0 16 10 11 = 0 ∧
    applyMigrationSpeedLimit 4096 16 10 11 =
      (if 11 < 10 + max (1000000 * 16 / 4096) 1 then
        10 + max (1000000 * 16 / 4096) 1 - 11
      else 0) ∧
    applyMigrationSpeedLimit 4096 16 10 11 = 3905 :=
  ⟨by decide, (c6_speed_limit 4096 16 10 11).1,
    ((c6_speed_limit 4096 16 10 11).2 (by decide)).2.trans (by decide), by decide⟩

/-- Claim C9: in `MigrateOneKey` the emptiness check precedes the expiry
check, so a non-String, non-Stream key with size 0 whose expiry has already
passed is classified `kUnderlyingStructEmpty` (not `kExpired`); and neither
early classification appends any restore command. -/
theorem c9_empty_precedes_expired (t : RedisTypeM) (size expire now : Nat)
    (build : List (List String)) :
    (t ≠ .tString → t ≠ .tStream → size = 0 → 0 < expire → expire ≤ now →
      migrateOneKeyClassify t size expire now build =
        (.kUnderlyingStructEmpty, [])) ∧
    ((migrateOneKeyClassify t size expire now build).1 =
        .kUnderlyingStructEmpty ∨
      (migrateOneKeyClassify t size expire now build).1 = .kExpired →
      (migrateOneKeyClassify t size expire now build).2 = []) := by
  constructor
  · intro h1 h2 h3 _ _
    simp [migrateOneKeyClassify, h1, h2, h3]
  · intro h
    by_cases he : t ≠ .tString ∧ t ≠ .tStream ∧ size = 0
    · simp [migrateOneKeyClassify, he]
    · by_cases hx : metadataExpired expire now = true
      · simp [migrateOneKeyClassify, he, hx]
      · simp [migrateOneKeyClassify, he, hx] at h ⊢

/-- Witness for `c9_empty_precedes_expired`: an empty hash whose expiry 5 ms
lies before now = 9 ms is reported empty with no commands. -/
theorem c9_empty_precedes_expired_witness :
    RedisTypeM.tHash ≠ RedisTypeM.tString ∧
    RedisTypeM.tHash ≠ RedisTypeM.tStream ∧ (0 : Nat) = 0 ∧ 0 < 5 ∧ 5 ≤ 9 ∧
    migrateOneKeyClassify .tHash 0 5 9 [["hmset", "h", "f", "v"]] =
      (.kUnderlyingStructEmpty, []) ∧
    (migrateOneKeyClassify .tHash 0 5 9 [["hmset", "h", "f", "v"]]).2 = [] :=
  ⟨by decide, by decide, rfl, by decide, by decide,
    (c9_empty_precedes_expired .tHash 0 5 9 [["hmset", "h", "f", "v"]]).1
      (by decide) (by decide) rfl (by decide) (by decide),
    (c9_empty_precedes_expired .tHash 0 5 9 [["hmset", "h", "f", "v"]]).2
      (Or.inl (by decide))⟩

/-- Claim C10: `Clean` resets exactly the per-job state (snapshot, stage,
pipeline counter, WAL cursor, job record, socket, running slot, stop flag)
and leaves `migration_state_`, `forbidden_slot_` and `migrate_failed_slot_`
(and the destination-node name) unchanged, so `GetMigrationInfo` still
reports the terminal outcome and its slot after `Clean`. -/
theorem c10_clean_frame (s : MigratorState) :
    cleanMigrator s =
      { s with
          slotSnapshot := none,
          currentStage := .sNone,
          currentPipelineSize := 0,
          walBeginSeq := 0,
          migrationJob := none,
          dstFd := none,
          migratingSlot := -1,
          stopMigration := false } ∧
    (cleanMigrator s).migrationState = s.migrationState ∧
    (cleanMigrator s).forbiddenSlot = s.forbiddenSlot ∧
    (cleanMigrator s).migrateFailedSlot = s.migrateFailedSlot ∧
    (cleanMigrator s).dstNode = s.dstNode ∧
    (s.migrationState = .mSuccess → 0 ≤ s.forbiddenSlot →
      getMigrationInfo (cleanMigrator s) =
        some ⟨s.forbiddenSlot, s.dstNode, "success"⟩) ∧
    (s.migrationState = .mFailed → 0 ≤ s.migrateFailedSlot →
      getMigrationInfo (cleanMigrator s) =
        some ⟨s.migrateFailedSlot, s.dstNode, "fail"⟩) := by
  refine ⟨rfl, rfl, rfl, rfl, rfl, fun h1 h2 => ?_, fun h1 h2 => ?_⟩ <;>
    simp [getMigrationInfo, cleanMigrator, h1] <;> omega

/-- Witness for `c10_clean_frame`: a successful migration of slot 5 and a
failed migration of slot 7 both keep their report after `Clean`. -/
theorem c10_clean_frame_witness :
    ({ mst0 with migrationState := .mSuccess, forbiddenSlot := 5 } :
        MigratorState).migrationState = .mSuccess ∧
    (0 : Int) ≤ 5 ∧
    getMigrationInfo (cleanMigrator
        { mst0 with migrationState := .mSuccess, forbiddenSlot := 5 }) =
      some ⟨5, "", "success"⟩ ∧
    getMigrationInfo (cleanMigrator
        { mst0 with migrationState := .mFailed, migrateFailedSlot := 7 }) =
      some ⟨7, "", "fail"⟩ := by
  refine ⟨rfl, by decide, ?_, ?_⟩
  · exact (c10_clean_frame
      { mst0 with migrationState := .mSuccess, forbiddenSlot := 5 }).2.2.2.2.2.1
      rfl (by decide)
  · exact (c10_clean_frame
      { mst0 with migrationState := .mFailed, migrateFailedSlot := 7 }).2.2.2.2.2.2
      rfl (by decide)

theorem phaseAGo_rounds_le (latest : Nat → Nat) (tailOk : Nat → Bool)
    (limit : Nat) :
    ∀ left count w,
      (phaseAGo latest tailOk limit left count w).rounds ≤ count + left := by
  intro left
  induction left with
  | zero => intro count w; simp [phaseAGo]
  | succ n ih =>
    intro count w
    by_cases hgap : sub64 (latest count) w ≤ limit
    · simp [phaseAGo, hgap]
    · by_cases ht : tailOk count = true
      · have := ih (count + 1) (latest count)
        simp only [phaseAGo, if_neg hgap, if_pos ht]
        omega
      · simp [phaseAGo, hgap, ht]

theorem phaseAGo_ok_of_tails (latest : Nat → Nat) (tailOk : Nat → Bool)
    (limit : Nat) (h : ∀ i, tailOk i = true) :
    ∀ left count w, (phaseAGo latest tailOk limit left count w).ok = true := by
  intro left
  induction left with
  | zero => intro count w; simp [phaseAGo]
  | succ n ih =>
    intro count w
    by_cases hgap : sub64 (latest count) w ≤ limit
    · simp [phaseAGo, hgap]
    · simp [phaseAGo, hgap, h count, ih]

/-- Claim C2: `SyncWALBeforeForbiddingSlot` executes at most 10 tail rounds;
a round whose observed gap `L - wal_begin_seq` (in `uint64_t` arithmetic) is
at most the gap limit exits the loop; otherwise the round tails up to `L` and
continues with `wal_begin_seq = L`; and when every tail succeeds the function
returns OK — in particular after 10 rounds it proceeds to the cutover
regardless of the remaining gap, so Phase A terminates under any write
load. -/
theorem c2_sync_wal_phase_a (latest : Nat → Nat) (tailOk : Nat → Bool)
    (limit w0 : Nat) :
    (syncWALBeforeForbiddingSlot latest tailOk limit w0).rounds ≤ 10 ∧
    ((∀ i, tailOk i = true) →
      (syncWALBeforeForbiddingSlot latest tailOk limit w0).ok = true) ∧
    (∀ left count w, sub64 (latest count) w ≤ limit →
      phaseAGo latest tailOk limit (left + 1) count w = ⟨true, count, w⟩) ∧
    (∀ left count w, ¬ sub64 (latest count) w ≤ limit → tailOk count = true →
      phaseAGo latest tailOk limit (left + 1) count w =
        phaseAGo latest tailOk limit left (count + 1) (latest count)) := by
  refine ⟨?_, fun h => phaseAGo_ok_of_tails latest tailOk limit h _ _ _,
    fun left count w hgap => by simp [phaseAGo, hgap],
    fun left count w hgap ht => by simp [phaseAGo, hgap, ht]⟩
  have := phaseAGo_rounds_le latest tailOk limit kMaxLoopTimes 0 w0
  simpa [syncWALBeforeForbiddingSlot, kMaxLoopTimes] using this

/-- Witness for `c2_sync_wal_phase_a`: a write load that produces 20000 new
sequence numbers per round against a gap limit of 100 never converges, yet
the loop exits OK; and the two unfolding equations at concrete rounds. -/
theorem c2_sync_wal_phase_a_witness :
    (syncWALBeforeForbiddingSlot (fun i => (i + 1) * 20000) (fun _ => true)
        100 0).rounds ≤ 10 ∧
    (syncWALBeforeForbiddingSlot (fun i => (i + 1) * 20000) (fun _ => true)
        100 0).ok = true ∧
    sub64 ((fun i : Nat => (i + 1) * 20000) 0) 19950 ≤ 100 ∧
    phaseAGo (fun i => (i + 1) * 20000) (fun _ => true) 100 (3 + 1) 0 19950 =
      ⟨true, 0, 19950⟩ ∧
    ¬ sub64 ((fun i : Nat => (i + 1) * 20000) 0) 0 ≤ 100 ∧
    phaseAGo (fun i => (i + 1) * 20000) (fun _ => true) 100 (3 + 1) 0 0 =
      phaseAGo (fun i => (i + 1) * 20000) (fun _ => true) 100 3 (0 + 1)
        ((fun i : Nat => (i + 1) * 20000) 0) := by
  have hc := c2_sync_wal_phase_a (fun i => (i + 1) * 20000) (fun _ => true) 100 0
  refine ⟨hc.1, hc.2.1 (fun _ => rfl), by decide, ?_, by decide, ?_⟩
  · exact hc.2.2.1 3 0 19950 (by decide)
  · exact hc.2.2.2 3 0 0 (by decide) rfl

/-- Claim C7, evaluated at the failing input: the reply `$-1\r\n` awaited as
one response does not complete as a nil reply — `ParseInt<uint64_t>` wraps
"-1" to `2^64 - 1`, the parser enters the bulk state expecting
`(2^64 - 1) + 2 ≡ 1` further byte (`size_t` arithmetic), and the read fails;
with a following pipelined reply `+OK\r\n` the parser instead consumes one
byte of that reply and then rejects the stream.  Ordinary bulk and
simple-string replies parse fine. -/
theorem c7_nil_bulk_reply_rejected :
    checkMultipleResponses ['$', '-', '1', '\r', '\n'] 1 = .errRead ∧
    checkMultipleResponses
      ['$', '-', '1', '\r', '\n', '+', 'O', 'K', '\r', '\n'] 2 =
        .errUnexpected ∧
    checkMultipleResponses
      ['$', '3', '\r', '\n', 'a', 'b', 'c', '\r', '\n'] 1 = .respOk ∧
    checkMultipleResponses ['+', 'O', 'K', '\r', '\n'] 1 = .respOk := by
  refine ⟨?_, ?_, ?_, ?_⟩ <;> decide


theorem chunks16_eq_of_ne_nil (l : List (List String)) (h : l ≠ []) :
    chunks16 l =
      (l.take kMaxItemsInCommand) :: chunks16 (l.drop kMaxItemsInCommand) := by
  cases l with
  | nil => exact absurd rfl h
  | cons x xs => rw [chunks16]

theorem complexBatchGo_eq_chunks (v k : String) (elems : List (List String)) :
    ∀ pre : List (List String), pre.length < kMaxItemsInCommand →
      complexBatchGo v k elems pre.flatten pre.length =
        (chunks16 (pre ++ elems)).map fun c => v :: k :: c.flatten := by
  induction elems with
  | nil =>
    intro pre hlen
    cases pre with
    | nil => simp [complexBatchGo, chunks16]
    | cons p ps =>
      have hne : (p :: ps).length % kMaxItemsInCommand ≠ 0 := by
        rw [Nat.mod_eq_of_lt hlen]; simp
      rw [List.append_nil, chunks16_eq_of_ne_nil _ (by simp),
        List.take_of_length_le (le_of_lt hlen),
        List.drop_eq_nil_of_le (le_of_lt hlen)]
      simp only [complexBatchGo, List.length_cons] at hne ⊢
      rw [if_pos hne]
      simp [chunks16]
  | cons e rest ih =>
    intro pre hlen
    by_cases h16 : kMaxItemsInCommand ≤ pre.length + 1
    · have hlen15 : (pre ++ [e]).length = kMaxItemsInCommand := by
        simp only [List.length_append, List.length_cons, List.length_nil]
        omega
      have h0 : complexBatchGo v k rest ([] : List (List String)).flatten
          ([] : List (List String)).length =
          (chunks16 ([] ++ rest)).map fun c => v :: k :: c.flatten :=
        ih [] (by simp [kMaxItemsInCommand])
      simp only [List.flatten_nil, List.length_nil, List.nil_append] at h0
      rw [show pre ++ e :: rest = (pre ++ [e]) ++ rest by simp,
        chunks16_eq_of_ne_nil ((pre ++ [e]) ++ rest) (by simp),
        List.take_left' hlen15, List.drop_left' hlen15]
      rw [show complexBatchGo v k (e :: rest) pre.flatten pre.length =
          (v :: k :: (pre.flatten ++ e)) :: complexBatchGo v k rest [] 0 by
            simp [complexBatchGo, h16],
        h0]
      simp
    · have hlt : (pre ++ [e]).length < kMaxItemsInCommand := by
        simp only [List.length_append, List.length_cons, List.length_nil]
        omega
      have h1 := ih (pre ++ [e]) hlt
      rw [show complexBatchGo v k (e :: rest) pre.flatten pre.length =
          complexBatchGo v k rest (pre.flatten ++ e) (pre.length + 1) by
            simp [complexBatchGo, h16]]
      have hj : (pre ++ [e]).flatten = pre.flatten ++ e := by simp
      have hl : (pre ++ [e]).length = pre.length + 1 := by simp
      rw [hj, hl] at h1
      rw [h1]
      simp

/-- Claim C5: `MigrateComplexKey` finalizes one command per full group of 16
appended elements (truncating the argument vector back to `(verb, key)`
after each group), the remaining `n mod 16` elements (when nonzero) form one
final command, and a trailing `PEXPIREAT` is emitted exactly when the
metadata expire field is positive; the commands are exactly the 16-element
chunks of the element list.  Concretely, a 33-element list produces two full
`rpush` commands of 16 elements, one `rpush` of the last element, and no
`PEXPIREAT` when no TTL is set (scenario S3). -/
theorem c5_complex_key_batching (v k : String) (elems : List (List String))
    (expire : Nat) :
    migrateComplexKeyCmds v k elems expire =
      ((chunks16 elems).map fun c => v :: k :: c.flatten) ++
        (if 0 < expire then [["PEXPIREAT", k, toString expire]] else []) ∧
    migrateComplexKeyCmds "rpush" "l"
        [["e0"], ["e1"], ["e2"], ["e3"], ["e4"], ["e5"], ["e6"], ["e7"],
         ["e8"], ["e9"], ["e10"], ["e11"], ["e12"], ["e13"], ["e14"], ["e15"],
         ["e16"], ["e17"], ["e18"], ["e19"], ["e20"], ["e21"], ["e22"],
         ["e23"], ["e24"], ["e25"], ["e26"], ["e27"], ["e28"], ["e29"],
         ["e30"], ["e31"], ["e32"]] 0 =
      [["rpush", "l", "e0", "e1", "e2", "e3", "e4", "e5", "e6", "e7", "e8",
        "e9", "e10", "e11", "e12", "e13", "e14", "e15"],
       ["rpush", "l", "e16", "e17", "e18", "e19", "e20", "e21", "e22", "e23",
        "e24", "e25", "e26", "e27", "e28", "e29", "e30", "e31"],
       ["rpush", "l", "e32"]] := by
  constructor
  · have := complexBatchGo_eq_chunks v k elems [] (by simp [kMaxItemsInCommand])
    simp only [List.flatten_nil, List.length_nil, List.nil_append] at this
    rw [migrateComplexKeyCmds, this]
  · decide
